import Mathlib

/-!
# lumo-api: the browser driver and the request handler

A shallow embedding of `internal/browser/driver.go` (`NewDriver`,
`Driver.Prompt`, `Driver.toggleWebSearch`) and of the timeout resolution in
`internal/api/handler.go`.

The page the driver acts on is an external system.  It is modelled by an
oracle `UI` giving the outcome of every call the driver makes on it, and by a
log kept in the driver state: every call on the page and every `time.Sleep`
is appended to `Driver.trace` together with the instant (in milliseconds) at
which it starts.  The context handed to `Prompt` is modelled by the instant
`D` from which `ctx.Done()` is closed.
-/

namespace Lumo

/-! ## Data model -/

/-- Calls made on the page by `Prompt` and `toggleWebSearch`, and sleeps. -/
inductive Action
  | querySelector
  | getAttribute
  | click
  | fill
  | typeText (prompt : String)
  | press
  | innerText
  | sleep (ms : Nat)
  deriving DecidableEq, Repr

/-- One result of `respLocator.InnerText()`: the string, whether the error is
non-nil, and how long the call took. -/
structure Sample where
  text : String
  err : Bool
  dur : Nat
  deriving DecidableEq, Repr

/-- Outcome of `page.QuerySelector` for the web-search button: an error, a nil
handle, or a handle with its `class` attribute (nil when missing) and the
result of a click on it. -/
inductive Toggle
  | queryFailed
  | absent
  | found (cls : Option String) (clickErr : Option String)
  deriving DecidableEq, Repr

/-- The page as seen by one call of `Prompt`. An `Option String` result is
the error of the call, `none` standing for a nil error. -/
structure UI where
  toggle : Toggle
  fillErr : Option String
  typeErr : String → Option String
  pressErr : Option String
  reads : Nat → Sample
  latency : Action → Nat

/-- Errors returned by `Prompt`. The click error of `toggleWebSearch` is
returned as it is, the others are wrapped by `fmt.Errorf`. -/
inductive PromptError
  | busy
  | toggle (e : String)
  | clearTextarea (e : String)
  | typePrompt (e : String)
  | pressEnter (e : String)
  | timeout
  deriving DecidableEq, Repr

/-- The text of `err.Error()`. -/
def PromptError.message : PromptError → String
  | .busy => "driver busy"
  | .toggle e => e
  | .clearTextarea e => "clear textarea: " ++ e
  | .typePrompt e => "type prompt: " ++ e
  | .pressEnter e => "press enter: " ++ e
  | .timeout => "timeout waiting for answer"

/-- The driver: the `busy` field of the Go struct, and the history of its
page: the clock, the number of reads of the output element so far, and the
log of actions with their starting instants. -/
structure Driver where
  busy : Bool
  now : Nat
  nreads : Nat
  trace : List (Nat × Action)
  deriving DecidableEq, Repr

/-! ## Primitive steps -/

/-- A call on the page other than a read of the output element. -/
def act (ui : UI) (a : Action) (d : Driver) : Driver :=
  { d with now := d.now + ui.latency a, trace := d.trace ++ [(d.now, a)] }

/-- The call `time.Sleep(ms * time.Millisecond)`. -/
def sleep (ms : Nat) (d : Driver) : Driver :=
  { d with now := d.now + ms, trace := d.trace ++ [(d.now, Action.sleep ms)] }

/-- The call `respLocator.InnerText()`. -/
def innerText (ui : UI) (d : Driver) : Sample × Driver :=
  (ui.reads d.nreads,
   { d with now := d.now + (ui.reads d.nreads).dur,
            nreads := d.nreads + 1,
            trace := d.trace ++ [(d.now, Action.innerText)] })

/-- Whether a list of characters has the given list as a contiguous part. -/
def containsChars (sub : List Char) : List Char → Bool
  | [] => sub.isPrefixOf []
  | c :: cs => sub.isPrefixOf (c :: cs) || containsChars sub cs

/-- Go's `strings.Contains(s, substr)`. -/
def stringsContains (s substr : String) : Bool :=
  containsChars substr.toList s.toList

/-- The placeholder shown while the answer is not there yet. -/
def placeholder : String := "…"

/-- The test `err == nil && text != "" && text != "…"` of the polling loop. -/
def Sample.usable (s : Sample) : Bool :=
  !s.err && s.text != "" && s.text != placeholder

/-! ## toggleWebSearch -/

/-- The value of `isActive`: the `class` attribute is non-nil and contains
`is-active`. -/
def classIsActive : Option String → Bool
  | some c => stringsContains c "is-active"
  | none => false

/-- The method `Driver.toggleWebSearch`: returns the error (or `none`). -/
def toggleWebSearch (ui : UI) (enable : Bool) (d : Driver) : Option String × Driver :=
  let d1 := act ui Action.querySelector d
  match ui.toggle with
  | Toggle.queryFailed => (none, d1)
  | Toggle.absent => (none, d1)
  | Toggle.found cls clickErr =>
    let d2 := act ui Action.getAttribute d1
    let isActive := classIsActive cls
    if enable && !isActive then (clickErr, act ui Action.click d2)
    else if !enable && isActive then (clickErr, act ui Action.click d2)
    else (none, d2)

/-! ## Prompt -/

/-- The polling loop of `Prompt` (the `for` with its `select`), one iteration
per unit of fuel; `none` when the fuel runs out. -/
def pollLoop (ui : UI) (D : Nat) : Nat → Driver → Option (Except PromptError String × Driver)
  | 0, _ => none
  | fuel + 1, d =>
    if D ≤ d.now then some (Except.error PromptError.timeout, d)
    else
      let r := innerText ui d
      if r.1.usable then
        let d2 := sleep 300 r.2
        let again := innerText ui d2
        if again.1.text = r.1.text then some (Except.ok r.1.text, again.2)
        else pollLoop ui D fuel (sleep 200 again.2)
      else pollLoop ui D fuel (sleep 200 r.2)

/-- The body of `Prompt` after the guard: the toggle, the three textarea
calls, then the polling loop. -/
def promptBody (ui : UI) (D fuel : Nat) (prompt : String) (webSearch : Bool) (d : Driver) :
    Option (Except PromptError String × Driver) :=
  let t := if webSearch then toggleWebSearch ui true d else toggleWebSearch ui false d
  match t.1 with
  | some e => some (Except.error (PromptError.toggle e), t.2)
  | none =>
    let d1 := act ui Action.fill t.2
    match ui.fillErr with
    | some e => some (Except.error (PromptError.clearTextarea e), d1)
    | none =>
      let d2 := act ui (Action.typeText prompt) d1
      match ui.typeErr prompt with
      | some e => some (Except.error (PromptError.typePrompt e), d2)
      | none =>
        let d3 := act ui Action.press d2
        match ui.pressErr with
        | some e => some (Except.error (PromptError.pressEnter e), d3)
        | none => pollLoop ui D fuel d3

/-- The method `Driver.Prompt`: the guard, `d.busy = true`, the body, and the
deferred `d.busy = false` run on every return of the body. -/
def Prompt (ui : UI) (D fuel : Nat) (prompt : String) (webSearch : Bool) (d : Driver) :
    Option (Except PromptError String × Driver) :=
  if d.busy then some (Except.error PromptError.busy, d)
  else
    match promptBody ui D fuel prompt webSearch { d with busy := true } with
    | none => none
    | some (r, d1) => some (r, { d1 with busy := false })

/-- The actions logged between two states of the driver. -/
def newActions (d d1 : Driver) : List Action :=
  (d1.trace.drop d.trace.length).map Prod.snd

/-- One call of `Prompt` as issued by a caller: the page it meets, the
instant its context is done, the iteration budget, and the arguments. -/
structure Call where
  ui : UI
  D : Nat
  fuel : Nat
  prompt : String
  webSearch : Bool

/-- Calls of `Prompt` issued one after the other on the same driver; each
entry of the result is what the call returned and the driver after it. -/
def runCalls : List Call → Driver → Option (List (Except PromptError String × Driver))
  | [], _ => some []
  | c :: cs, d =>
    match Prompt c.ui c.D c.fuel c.prompt c.webSearch d with
    | none => none
    | some (r, d1) =>
      match runCalls cs d1 with
      | none => none
      | some rest => some ((r, d1) :: rest)

/-! ## The handler's timeout resolution -/

/-- The request body of `/v1/prompt`; `timeout` is a Go `int`. -/
structure PromptRequest where
  prompt : String
  webSearch : Bool
  debug : Bool
  timeout : Int

/-- The constant `time.Second`, in nanoseconds. -/
def second : Int := 1000000000

/-- Two's complement wrap-around of a 64-bit signed integer. -/
def wrapInt64 (x : Int) : Int := (x + 2 ^ 63) % 2 ^ 64 - 2 ^ 63

/-- The duration `to` given to `WithTimeout` by the handler, in nanoseconds
(`time.Duration` is an `int64`). -/
def resolveTimeout (req : PromptRequest) : Int :=
  if req.timeout > 0 then wrapInt64 (wrapInt64 req.timeout * second)
  else wrapInt64 (30 * second)

/-! ## NewDriver -/

/-- Steps taken by `NewDriver` on the outside world. -/
inductive BootAction
  | playwrightRun
  | chromiumLaunch
  | newPage
  | statAuth
  | addCookiesFromFile
  | printNoAuth
  | gotoLogin
  | printPressEnter
  | scanln
  | storageState
  | gotoMain
  | waitForSelector
  | logReady
  deriving DecidableEq, Repr

/-- Outcome of every step of `NewDriver`; `none` is a nil error. `statErr`
is the error of `os.Stat("auth.json")`. -/
structure BootEnv where
  runErr : Option String
  launchErr : Option String
  newPageErr : Option String
  statErr : Option String
  addCookiesErr : Option String
  gotoLoginErr : Option String
  storageStateErr : Option String
  gotoMainErr : Option String
  waitErr : Option String

/-- Errors returned by `NewDriver`. -/
inductive BootError
  | playwrightLaunch (e : String)
  | chromiumLaunch (e : String)
  | newPage (e : String)
  | loadAuth (e : String)
  | gotoLogin (e : String)
  | saveAuth (e : String)
  | gotoMain (e : String)
  | chatInput (e : String)
  deriving DecidableEq, Repr

/-- The last part of `NewDriver`: navigation to the chat UI and the wait for
the chat input; `acts` are the steps taken so far. -/
def finishBoot (env : BootEnv) (acts : List BootAction) : Except BootError Driver × List BootAction :=
  match env.gotoMainErr with
  | some e => (Except.error (BootError.gotoMain e), acts ++ [BootAction.gotoMain])
  | none =>
    match env.waitErr with
    | some e =>
      (Except.error (BootError.chatInput e), acts ++ [BootAction.gotoMain, BootAction.waitForSelector])
    | none =>
      (Except.ok { busy := false, now := 0, nreads := 0, trace := [] },
       acts ++ [BootAction.gotoMain, BootAction.waitForSelector, BootAction.logReady])

/-- The function `NewDriver`, with the steps it took. -/
def NewDriver (env : BootEnv) : Except BootError Driver × List BootAction :=
  match env.runErr with
  | some e => (Except.error (BootError.playwrightLaunch e), [BootAction.playwrightRun])
  | none =>
    match env.launchErr with
    | some e =>
      (Except.error (BootError.chromiumLaunch e), [BootAction.playwrightRun, BootAction.chromiumLaunch])
    | none =>
      match env.newPageErr with
      | some e =>
        (Except.error (BootError.newPage e),
         [BootAction.playwrightRun, BootAction.chromiumLaunch, BootAction.newPage])
      | none =>
        let acts := [BootAction.playwrightRun, BootAction.chromiumLaunch, BootAction.newPage,
                     BootAction.statAuth]
        match env.statErr with
        | none =>
          match env.addCookiesErr with
          | some e => (Except.error (BootError.loadAuth e), acts ++ [BootAction.addCookiesFromFile])
          | none => finishBoot env (acts ++ [BootAction.addCookiesFromFile])
        | some _ =>
          match env.gotoLoginErr with
          | some e =>
            (Except.error (BootError.gotoLogin e), acts ++ [BootAction.printNoAuth, BootAction.gotoLogin])
          | none =>
            let acts1 := acts ++ [BootAction.printNoAuth, BootAction.gotoLogin,
                                  BootAction.printPressEnter, BootAction.scanln,
                                  BootAction.storageState]
            match env.storageStateErr with
            | some e => (Except.error (BootError.saveAuth e), acts1)
            | none => finishBoot env acts1

/-! ## Concurrent callers of the guard -/

/-- Where a caller of `Prompt` stands: before the test `if d.busy`, between
the test and the store `d.busy = true`, in the guarded body, returned with
the busy error, or returned from the body. -/
inductive Pc
  | atTest
  | atSet
  | inBody
  | rejected
  | returned
  deriving DecidableEq, Repr

/-- The shared flag and the position of every caller. -/
structure Shared where
  busy : Bool
  pcs : List Pc
  deriving DecidableEq, Repr

/-- One step of caller `i`: the load of `d.busy`, the store `d.busy = true`,
or the return of the body with the deferred `d.busy = false`. -/
def stepCaller (i : Nat) (s : Shared) : Shared :=
  match s.pcs.get? i with
  | some Pc.atTest =>
    if s.busy then { s with pcs := s.pcs.set i Pc.rejected }
    else { s with pcs := s.pcs.set i Pc.atSet }
  | some Pc.atSet => { busy := true, pcs := s.pcs.set i Pc.inBody }
  | some Pc.inBody => { busy := false, pcs := s.pcs.set i Pc.returned }
  | _ => s

/-- The state after the callers have taken steps in the order given. -/
def runSchedule (sched : List Nat) (s : Shared) : Shared :=
  sched.foldl (fun st i => stepCaller i st) s

/-- The number of callers in the guarded body. -/
def inFlight (s : Shared) : Nat := s.pcs.count Pc.inBody

/-! ## Scenarios -/

/-- Reads given by a list of strings, each taking no time and succeeding;
once the list is used up every read returns `last`. -/
def readsOf (xs : List String) (last : String) (i : Nat) : Sample :=
  { text := xs.getD i last, err := false, dur := 0 }

/-- A page without web-search button on which every submission call succeeds
and takes no time. -/
def quietUI (reads : Nat → Sample) : UI :=
  { toggle := Toggle.absent, fillErr := none, typeErr := fun _ => none, pressErr := none,
    reads := reads, latency := fun _ => 0 }

/-- A driver at rest at instant `t`. -/
def idle (t : Nat) : Driver := { busy := false, now := t, nreads := 0, trace := [] }

/-- Reads that never settle: the strings `a` and `b` in turn. -/
def flicker (i : Nat) : Sample :=
  { text := if i % 2 = 0 then "a" else "b", err := false, dur := 0 }

/-- An output that never stabilizes: no usable read is followed by a read with
the same text. -/
def neverSettles (reads : Nat → Sample) : Prop :=
  ∀ i, (reads i).usable = true → (reads (i + 1)).text ≠ (reads i).text

/-- Every step of `NewDriver` other than the `os.Stat` of `auth.json`
succeeds. -/
def BootEnv.stepsSucceed (env : BootEnv) : Prop :=
  env.runErr = none ∧ env.launchErr = none ∧ env.newPageErr = none ∧
  env.addCookiesErr = none ∧ env.gotoLoginErr = none ∧ env.storageStateErr = none ∧
  env.gotoMainErr = none ∧ env.waitErr = none

/-- A start of the server on which every step succeeds; `statErr` tells
whether `auth.json` is there. -/
def smoothBoot (statErr : Option String) : BootEnv :=
  { runErr := none, launchErr := none, newPageErr := none, statErr := statErr,
    addCookiesErr := none, gotoLoginErr := none, storageStateErr := none,
    gotoMainErr := none, waitErr := none }

/-- The reads of the second example: a text that changes twice. -/
def abbcc : List String := ["A", "B", "B", "C", "C"]

/-- The reads of the example: nothing, the placeholder, a partial text, then
the full text. -/
def helloReads : List String := ["", "…", "Hel", "Hello", "Hello", "Hello"]

/-- A page whose web-search button has the class attribute `cls` and answers
a click with `clickErr`; the other calls succeed and take no time. -/
def activeUI (cls : Option String) (clickErr : Option String) : UI :=
  { toggle := Toggle.found cls clickErr, fillErr := none, typeErr := fun _ => none,
    pressErr := none, reads := readsOf helloReads "", latency := fun _ => 0 }

/-- A page on which the steps fail as given; the web-search button is there,
not active, and `clickErr` is the result of a click on it. -/
def faultyUI (clickErr fillErr typeErr pressErr : Option String) : UI :=
  { toggle := Toggle.found (some "btn") clickErr, fillErr := fillErr,
    typeErr := fun _ => typeErr, pressErr := pressErr, reads := readsOf helloReads "",
    latency := fun _ => 0 }

/-- Six calls in a row, one for each way `Prompt` returns once past the
guard: a text, a failed click, a failed clear, a failed type, a failed Enter,
and the timeout. -/
def sampleCalls : List Call :=
  [ { ui := quietUI (readsOf helloReads ""), D := 1000, fuel := 6, prompt := "hi",
      webSearch := true },
    { ui := faultyUI (some "click failed") none none none, D := 3000, fuel := 16,
      prompt := "hi", webSearch := true },
    { ui := faultyUI none (some "no textarea") none none, D := 3000, fuel := 16,
      prompt := "hi", webSearch := true },
    { ui := faultyUI none none (some "rejected") none, D := 3000, fuel := 16,
      prompt := "hi", webSearch := true },
    { ui := faultyUI none none none (some "detached"), D := 3000, fuel := 16,
      prompt := "hi", webSearch := true },
    { ui := quietUI flicker, D := 2000, fuel := 11, prompt := "hi", webSearch := false } ]

end Lumo

namespace Lumo

/-! ## Facts about the primitive steps -/

@[simp] theorem act_busy (ui : UI) (a : Action) (d : Driver) : (act ui a d).busy = d.busy := rfl

@[simp] theorem act_nreads (ui : UI) (a : Action) (d : Driver) :
    (act ui a d).nreads = d.nreads := rfl

@[simp] theorem act_now (ui : UI) (a : Action) (d : Driver) :
    (act ui a d).now = d.now + ui.latency a := rfl

@[simp] theorem act_trace (ui : UI) (a : Action) (d : Driver) :
    (act ui a d).trace = d.trace ++ [(d.now, a)] := rfl

@[simp] theorem sleep_busy (ms : Nat) (d : Driver) : (sleep ms d).busy = d.busy := rfl

@[simp] theorem sleep_nreads (ms : Nat) (d : Driver) : (sleep ms d).nreads = d.nreads := rfl

@[simp] theorem sleep_now (ms : Nat) (d : Driver) : (sleep ms d).now = d.now + ms := rfl

@[simp] theorem sleep_trace (ms : Nat) (d : Driver) :
    (sleep ms d).trace = d.trace ++ [(d.now, Action.sleep ms)] := rfl

@[simp] theorem innerText_sample (ui : UI) (d : Driver) :
    (innerText ui d).1 = ui.reads d.nreads := rfl

@[simp] theorem innerText_busy (ui : UI) (d : Driver) : (innerText ui d).2.busy = d.busy := rfl

@[simp] theorem innerText_nreads (ui : UI) (d : Driver) :
    (innerText ui d).2.nreads = d.nreads + 1 := rfl

@[simp] theorem innerText_now (ui : UI) (d : Driver) :
    (innerText ui d).2.now = d.now + (ui.reads d.nreads).dur := rfl

@[simp] theorem innerText_trace (ui : UI) (d : Driver) :
    (innerText ui d).2.trace = d.trace ++ [(d.now, Action.innerText)] := rfl

theorem usable_iff (s : Sample) :
    s.usable = true ↔ s.err = false ∧ s.text ≠ "" ∧ s.text ≠ "…" := by
  simp [Sample.usable, placeholder, and_assoc]

/-! ## The polling loop -/

theorem pollLoop_succ (ui : UI) (D fuel : Nat) (d : Driver) :
    pollLoop ui D (fuel + 1) d =
      if D ≤ d.now then some (Except.error PromptError.timeout, d)
      else if (ui.reads d.nreads).usable then
        if (ui.reads (d.nreads + 1)).text = (ui.reads d.nreads).text then
          some (Except.ok (ui.reads d.nreads).text, (innerText ui (sleep 300 (innerText ui d).2)).2)
        else pollLoop ui D fuel (sleep 200 (innerText ui (sleep 300 (innerText ui d).2)).2)
      else pollLoop ui D fuel (sleep 200 (innerText ui d).2) := by
  simp [pollLoop]

/-- With a budget of one iteration per 200 ms left before the deadline, and
one more, the loop returns. -/
theorem pollLoop_returns (ui : UI) (D : Nat) :
    ∀ (fuel : Nat) (d : Driver), 0 < fuel → D + 200 ≤ d.now + 200 * fuel →
      ∃ r, pollLoop ui D fuel d = some r := by
  intro fuel
  induction fuel with
  | zero => intro d h; omega
  | succ n ih =>
    intro d _ hb
    rw [pollLoop_succ]
    by_cases hD : D ≤ d.now
    · exact ⟨_, if_pos hD⟩
    · rw [if_neg hD]
      by_cases hu : (ui.reads d.nreads).usable = true
      · rw [if_pos hu]
        by_cases he : (ui.reads (d.nreads + 1)).text = (ui.reads d.nreads).text
        · exact ⟨_, if_pos he⟩
        · rw [if_neg he]
          apply ih
          · omega
          · simp only [sleep_now, innerText_now, innerText_nreads, sleep_nreads]
            omega
      · rw [if_neg hu]
        apply ih
        · omega
        · simp only [sleep_now, innerText_now]
          omega

/-- A text returned by the loop comes from an iteration begun before the
deadline in a state `d0`: the read made there is usable, the next read has the
same text, and the loop returns right after that second read. -/
theorem pollLoop_ok (ui : UI) (D : Nat) :
    ∀ (fuel : Nat) (d : Driver) (text : String) (d1 : Driver),
      pollLoop ui D fuel d = some (Except.ok text, d1) →
      ∃ d0 : Driver, d0.now < D ∧ d.nreads ≤ d0.nreads ∧ d0.busy = d.busy ∧
        d.trace <+: d0.trace ∧
        (ui.reads d0.nreads).usable = true ∧ (ui.reads d0.nreads).text = text ∧
        (ui.reads (d0.nreads + 1)).text = text ∧
        d1 = (innerText ui (sleep 300 (innerText ui d0).2)).2 := by
  intro fuel
  induction fuel with
  | zero => intro d text d1 h; simp [pollLoop] at h
  | succ n ih =>
    intro d text d1 h
    rw [pollLoop_succ] at h
    by_cases hD : D ≤ d.now
    · rw [if_pos hD] at h
      simp at h
    · rw [if_neg hD] at h
      by_cases hu : (ui.reads d.nreads).usable = true
      · rw [if_pos hu] at h
        by_cases he : (ui.reads (d.nreads + 1)).text = (ui.reads d.nreads).text
        · rw [if_pos he] at h
          simp only [Option.some.injEq, Prod.mk.injEq, Except.ok.injEq] at h
          refine ⟨d, by omega, le_refl _, rfl, List.prefix_refl _, hu, h.1, ?_, h.2.symm⟩
          rw [he]
          exact h.1
        · rw [if_neg he] at h
          obtain ⟨d0, h1, h2, h3, h4, h5⟩ := ih _ _ _ h
          refine ⟨d0, h1, ?_, ?_, List.IsPrefix.trans ?_ h4, h5⟩
          · simp only [sleep_nreads, innerText_nreads] at h2
            omega
          · simpa using h3
          · simp only [sleep_trace, innerText_trace, List.append_assoc]
            exact List.prefix_append _ _
      · rw [if_neg hu] at h
        obtain ⟨d0, h1, h2, h3, h4, h5⟩ := ih _ _ _ h
        refine ⟨d0, h1, ?_, ?_, List.IsPrefix.trans ?_ h4, h5⟩
        · simp only [sleep_nreads, innerText_nreads] at h2
          omega
        · simpa using h3
        · simp only [sleep_trace, innerText_trace, List.append_assoc]
          exact List.prefix_append _ _

/-- The loop leaves the busy flag as it found it. -/
theorem pollLoop_busy (ui : UI) (D : Nat) :
    ∀ (fuel : Nat) (d : Driver) (r : Except PromptError String) (d1 : Driver),
      pollLoop ui D fuel d = some (r, d1) → d1.busy = d.busy := by
  intro fuel
  induction fuel with
  | zero => intro d r d1 h; simp [pollLoop] at h
  | succ n ih =>
    intro d r d1 h
    rw [pollLoop_succ] at h
    split_ifs at h with hD hu he
    · simp only [Option.some.injEq, Prod.mk.injEq] at h
      rw [← h.2]
    · simp only [Option.some.injEq, Prod.mk.injEq] at h
      rw [← h.2]
      simp
    · simpa using ih _ _ _ h
    · simpa using ih _ _ _ h

/-- The loop never returns an error other than the timeout. -/
theorem pollLoop_error (ui : UI) (D : Nat) :
    ∀ (fuel : Nat) (d : Driver) (e : PromptError) (d1 : Driver),
      pollLoop ui D fuel d = some (Except.error e, d1) → e = PromptError.timeout := by
  intro fuel
  induction fuel with
  | zero => intro d e d1 h; simp [pollLoop] at h
  | succ n ih =>
    intro d e d1 h
    rw [pollLoop_succ] at h
    split_ifs at h with hD hu he
    · simp only [Option.some.injEq, Prod.mk.injEq, Except.error.injEq] at h
      exact h.1.symm
    · simp at h
    · exact ih _ _ _ h
    · exact ih _ _ _ h

/-! ## toggleWebSearch and the submission steps -/

theorem toggleWebSearch_busy (ui : UI) (enable : Bool) (d : Driver) :
    (toggleWebSearch ui enable d).2.busy = d.busy := by
  unfold toggleWebSearch
  cases ui.toggle <;> simp
  split_ifs <;> simp

theorem toggleWebSearch_nreads (ui : UI) (enable : Bool) (d : Driver) :
    (toggleWebSearch ui enable d).2.nreads = d.nreads := by
  unfold toggleWebSearch
  cases ui.toggle <;> simp
  split_ifs <;> simp

/-- What `toggleWebSearch` logs: the query, then the attribute read when a
handle is found, then at most one click. -/
theorem toggleWebSearch_trace (ui : UI) (enable : Bool) (d : Driver) :
    ∃ acts : List (Nat × Action), (toggleWebSearch ui enable d).2.trace = d.trace ++ acts ∧
      ∀ x ∈ acts, x.2 = Action.querySelector ∨ x.2 = Action.getAttribute ∨ x.2 = Action.click := by
  unfold toggleWebSearch
  cases ui.toggle with
  | queryFailed => exact ⟨[(d.now, Action.querySelector)], by simp, by simp⟩
  | absent => exact ⟨[(d.now, Action.querySelector)], by simp, by simp⟩
  | found cls ce =>
    by_cases h1 : (enable && !classIsActive cls) = true
    · refine ⟨[(d.now, Action.querySelector),
        (d.now + ui.latency Action.querySelector, Action.getAttribute),
        (d.now + ui.latency Action.querySelector + ui.latency Action.getAttribute,
          Action.click)], ?_, ?_⟩
      · simp [h1]
      · simp
    · by_cases h2 : (!enable && classIsActive cls) = true
      · refine ⟨[(d.now, Action.querySelector),
          (d.now + ui.latency Action.querySelector, Action.getAttribute),
          (d.now + ui.latency Action.querySelector + ui.latency Action.getAttribute,
            Action.click)], ?_, ?_⟩
        · simp [h2]
        · simp
      · refine ⟨[(d.now, Action.querySelector),
          (d.now + ui.latency Action.querySelector, Action.getAttribute)], ?_, ?_⟩
        · simp [h1, h2]
        · simp

theorem newActions_append (d d1 : Driver) (acts : List (Nat × Action))
    (h : d1.trace = d.trace ++ acts) : newActions d d1 = acts.map Prod.snd := by
  simp [newActions, h]

/-- The body of `Prompt` in terms of one call of `toggleWebSearch`. -/
theorem promptBody_eq (ui : UI) (D fuel : Nat) (prompt : String) (webSearch : Bool) (d : Driver) :
    promptBody ui D fuel prompt webSearch d =
      match (toggleWebSearch ui webSearch d).1 with
      | some e => some (Except.error (PromptError.toggle e), (toggleWebSearch ui webSearch d).2)
      | none =>
        match ui.fillErr with
        | some e =>
          some (Except.error (PromptError.clearTextarea e),
                act ui Action.fill (toggleWebSearch ui webSearch d).2)
        | none =>
          match ui.typeErr prompt with
          | some e =>
            some (Except.error (PromptError.typePrompt e),
                  act ui (Action.typeText prompt)
                    (act ui Action.fill (toggleWebSearch ui webSearch d).2))
          | none =>
            match ui.pressErr with
            | some e =>
              some (Except.error (PromptError.pressEnter e),
                    act ui Action.press (act ui (Action.typeText prompt)
                      (act ui Action.fill (toggleWebSearch ui webSearch d).2)))
            | none =>
              pollLoop ui D fuel
                (act ui Action.press (act ui (Action.typeText prompt)
                  (act ui Action.fill (toggleWebSearch ui webSearch d).2))) := by
  cases webSearch <;> rfl

/-- The body of `Prompt` returns when the budget covers the deadline. -/
theorem promptBody_returns (ui : UI) (D fuel : Nat) (prompt : String) (webSearch : Bool)
    (d : Driver) (hf : D + 200 ≤ 200 * fuel) :
    ∃ r, promptBody ui D fuel prompt webSearch d = some r := by
  rw [promptBody_eq]
  cases (toggleWebSearch ui webSearch d).1 with
  | some e => exact ⟨_, rfl⟩
  | none =>
    cases ui.fillErr with
    | some e => exact ⟨_, rfl⟩
    | none =>
      cases ui.typeErr prompt with
      | some e => exact ⟨_, rfl⟩
      | none =>
        cases ui.pressErr with
        | some e => exact ⟨_, rfl⟩
        | none =>
          apply pollLoop_returns
          · omega
          · omega

/-- The body of `Prompt` never returns the busy error. -/
theorem promptBody_not_busy (ui : UI) (D fuel : Nat) (prompt : String) (webSearch : Bool)
    (d : Driver) (r : Except PromptError String) (d1 : Driver)
    (h : promptBody ui D fuel prompt webSearch d = some (r, d1)) :
    r ≠ Except.error PromptError.busy := by
  rw [promptBody_eq] at h
  intro hr
  subst hr
  cases ht : (toggleWebSearch ui webSearch d).1 with
  | some e => rw [ht] at h; simp at h
  | none =>
    rw [ht] at h
    cases hfill : ui.fillErr with
    | some e => rw [hfill] at h; simp at h
    | none =>
      rw [hfill] at h
      cases hty : ui.typeErr prompt with
      | some e => rw [hty] at h; simp at h
      | none =>
        rw [hty] at h
        cases hp : ui.pressErr with
        | some e => rw [hp] at h; simp at h
        | none =>
          rw [hp] at h
          have := pollLoop_error ui D fuel _ _ _ h
          simp at this

/-- A text returned by the body of `Prompt` is returned by the polling loop,
started after the four submission steps succeeded. -/
theorem promptBody_ok (ui : UI) (D fuel : Nat) (prompt : String) (webSearch : Bool)
    (d : Driver) (text : String) (d1 : Driver)
    (h : promptBody ui D fuel prompt webSearch d = some (Except.ok text, d1)) :
    ∃ d3 : Driver, d3.nreads = d.nreads ∧ pollLoop ui D fuel d3 = some (Except.ok text, d1) := by
  rw [promptBody_eq] at h
  cases ht : (toggleWebSearch ui webSearch d).1 with
  | some e => rw [ht] at h; simp at h
  | none =>
    rw [ht] at h
    cases hfill : ui.fillErr with
    | some e => rw [hfill] at h; simp at h
    | none =>
      rw [hfill] at h
      cases hty : ui.typeErr prompt with
      | some e => rw [hty] at h; simp at h
      | none =>
        rw [hty] at h
        cases hp : ui.pressErr with
        | some e => rw [hp] at h; simp at h
        | none =>
          rw [hp] at h
          exact ⟨_, by simp [toggleWebSearch_nreads], h⟩

theorem Prompt_free (ui : UI) (D fuel : Nat) (prompt : String) (webSearch : Bool) (d : Driver)
    (hb : d.busy = false) :
    Prompt ui D fuel prompt webSearch d =
      match promptBody ui D fuel prompt webSearch { d with busy := true } with
      | none => none
      | some (r, d1) => some (r, { d1 with busy := false }) := by
  simp [Prompt, hb]

/-- A call entered with the flag down returns, with the flag down and not
with the busy error, when the budget covers the deadline. -/
theorem Prompt_returns_free (ui : UI) (D fuel : Nat) (prompt : String) (webSearch : Bool)
    (d : Driver) (hb : d.busy = false) (hf : D + 200 ≤ 200 * fuel) :
    ∃ r d1, Prompt ui D fuel prompt webSearch d = some (r, d1) ∧ d1.busy = false ∧
      r ≠ Except.error PromptError.busy := by
  obtain ⟨⟨r, d1⟩, h⟩ := promptBody_returns ui D fuel prompt webSearch { d with busy := true } hf
  refine ⟨r, { d1 with busy := false }, ?_, rfl, promptBody_not_busy _ _ _ _ _ _ _ _ h⟩
  rw [Prompt_free _ _ _ _ _ _ hb, h]

/-! ## The stabilized text (C1) -/

/-- On the example reads the loop can only time out or return the full
text, whatever the deadline, the budget and the reads that follow. -/
theorem pollLoop_hello (ui : UI) (last : String) (hr : ui.reads = readsOf helloReads last)
    (D fuel : Nat) (d : Driver) (hn : d.nreads = 0)
    (r : Except PromptError String) (d1 : Driver)
    (h : pollLoop ui D fuel d = some (r, d1)) :
    r = Except.error PromptError.timeout ∨ r = Except.ok "Hello" := by
  rcases fuel with _ | _ | _ | _ | _ | fuel <;>
    simp [pollLoop_succ, pollLoop, hr, readsOf, helloReads, Sample.usable, placeholder, hn]
      at h
  all_goals
    first
      | exact Or.inl h.2.1.symm
      | (split_ifs at h <;> simp at h <;>
          first
            | exact Or.inl h.1.symm
            | exact Or.inr h.1.symm)

/-- On the example reads the loop returns the full text when it is entered
more than 900 ms before the deadline with a budget of five iterations. -/
theorem pollLoop_hello_returns (ui : UI) (last : String)
    (hr : ui.reads = readsOf helloReads last) (D fuel : Nat) (d : Driver) (hn : d.nreads = 0)
    (hD : d.now + 900 < D) (hf : 5 ≤ fuel) :
    ∃ d1, pollLoop ui D fuel d = some (Except.ok "Hello", d1) := by
  obtain ⟨f, rfl⟩ : ∃ f, fuel = f + 5 := ⟨fuel - 5, by omega⟩
  have h0 : ¬ D ≤ d.now := by omega
  have h1 : ¬ D ≤ d.now + 200 := by omega
  have h2 : ¬ D ≤ d.now + 200 + 200 := by omega
  have h3 : ¬ D ≤ d.now + 200 + 200 + 300 + 200 := by omega
  simp [pollLoop_succ, hr, readsOf, helloReads, Sample.usable, placeholder, hn, h0, h1, h2, h3]

/-- A text returned by `Prompt` is returned by the body run from the driver
with the flag raised. -/
theorem Prompt_ok_body (ui : UI) (D fuel : Nat) (prompt : String) (webSearch : Bool)
    (d : Driver) (text : String) (d1 : Driver)
    (h : Prompt ui D fuel prompt webSearch d = some (Except.ok text, d1)) :
    ∃ d2 : Driver, d1 = { d2 with busy := false } ∧
      promptBody ui D fuel prompt webSearch { d with busy := true } =
        some (Except.ok text, d2) := by
  cases hb : d.busy with
  | true => simp [Prompt, hb] at h
  | false =>
    rw [Prompt_free _ _ _ _ _ _ hb] at h
    cases hp : promptBody ui D fuel prompt webSearch { d with busy := true } with
    | none => rw [hp] at h; simp at h
    | some x =>
      obtain ⟨r, d2⟩ := x
      rw [hp] at h
      simp only [Option.some.injEq, Prod.mk.injEq] at h
      exact ⟨d2, h.2.symm, by rw [h.1]⟩

/-- C1. Whenever `Prompt` returns a text, the text is non-empty, is not the
placeholder, and is the text of two reads made one right after the other: read
number `i` succeeded, the 300 ms sleep followed, and read number `i + 1`, the
last action of the call, returned the same string. On the example reads
`["", "…", "Hel", "Hello", "Hello", "Hello"]` a returned text is always
`"Hello"`, and `"Hello"` is returned when the deadline leaves the loop more
than 900 ms. -/
theorem Prompt_returns_settled_text :
    (∀ (ui : UI) (D fuel : Nat) (prompt : String) (webSearch : Bool) (d : Driver)
        (text : String) (d1 : Driver),
        Prompt ui D fuel prompt webSearch d = some (Except.ok text, d1) →
        text ≠ "" ∧ text ≠ "…" ∧
        ∃ (i t : Nat) (pre : List (Nat × Action)),
          d.nreads ≤ i ∧ d1.nreads = i + 2 ∧ t < D ∧
          (ui.reads i).err = false ∧ (ui.reads i).text = text ∧
          (ui.reads (i + 1)).text = text ∧
          d1.trace = pre ++ [(t, Action.innerText), (t + (ui.reads i).dur, Action.sleep 300),
                             (t + (ui.reads i).dur + 300, Action.innerText)]) ∧
    (∀ (ui : UI) (last : String) (D fuel : Nat) (prompt : String) (webSearch : Bool)
        (d : Driver) (text : String) (d1 : Driver),
        ui.reads = readsOf helloReads last → d.nreads = 0 →
        Prompt ui D fuel prompt webSearch d = some (Except.ok text, d1) → text = "Hello") ∧
    (∀ (last : String) (D fuel t : Nat) (prompt : String) (webSearch : Bool),
        t + 900 < D → 5 ≤ fuel →
        ∃ d1, Prompt (quietUI (readsOf helloReads last)) D fuel prompt webSearch (idle t) =
          some (Except.ok "Hello", d1)) := by
  refine ⟨?_, ?_, ?_⟩
  · intro ui D fuel prompt webSearch d text d1 h
    obtain ⟨d2, hd1, hbody⟩ := Prompt_ok_body _ _ _ _ _ _ _ _ h
    obtain ⟨d3, hn3, hloop⟩ := promptBody_ok _ _ _ _ _ _ _ _ hbody
    obtain ⟨d0, hlt, hle, _, _, hu, ht, ht1, hd2⟩ := pollLoop_ok _ _ _ _ _ _ hloop
    obtain ⟨he, hne, hnp⟩ := (usable_iff _).1 hu
    rw [ht] at hne hnp
    refine ⟨hne, hnp, d0.nreads, d0.now, d0.trace, ?_, ?_, hlt, he, ht, ht1, ?_⟩
    · rw [hn3] at hle
      exact hle
    · rw [hd1, hd2]
      simp
    · rw [hd1, hd2]
      simp
  · intro ui last D fuel prompt webSearch d text d1 hr hn h
    obtain ⟨d2, _, hbody⟩ := Prompt_ok_body _ _ _ _ _ _ _ _ h
    obtain ⟨d3, hn3, hloop⟩ := promptBody_ok _ _ _ _ _ _ _ _ hbody
    have hn0 : d3.nreads = 0 := by rw [hn3]; exact hn
    rcases pollLoop_hello ui last hr D fuel d3 hn0 _ _ hloop with h1 | h1
    · simp at h1
    · simpa using h1
  · intro last D fuel t prompt webSearch hD hf
    have hloop := pollLoop_hello_returns (quietUI (readsOf helloReads last)) last rfl D fuel
      (act (quietUI (readsOf helloReads last)) Action.press
        (act (quietUI (readsOf helloReads last)) (Action.typeText prompt)
          (act (quietUI (readsOf helloReads last)) Action.fill
            (toggleWebSearch (quietUI (readsOf helloReads last)) webSearch
              { idle t with busy := true }).2)))
      (by simp [toggleWebSearch_nreads, idle])
      (by simpa [toggleWebSearch, quietUI, idle] using hD) hf
    obtain ⟨d1, h1⟩ := hloop
    refine ⟨{ d1 with busy := false }, ?_⟩
    rw [Prompt_free _ _ _ _ _ _ rfl, promptBody_eq]
    have ht : (toggleWebSearch (quietUI (readsOf helloReads last)) webSearch
        { idle t with busy := true }).1 = none := by
      simp [toggleWebSearch, quietUI]
    rw [ht]
    simp only [quietUI] at h1 ⊢
    rw [h1]

/-- C1 at a concrete call: the example reads, a deadline of one second. -/
theorem Prompt_returns_settled_text_witness :
    "Hello" ≠ "" ∧ "Hello" ≠ "…" ∧
    ∃ (i t : Nat) (pre : List (Nat × Action)),
      (idle 0).nreads ≤ i ∧ 6 = i + 2 ∧ t < 1000 ∧
      ((quietUI (readsOf helloReads "")).reads i).err = false ∧
      ((quietUI (readsOf helloReads "")).reads i).text = "Hello" ∧
      ((quietUI (readsOf helloReads "")).reads (i + 1)).text = "Hello" ∧
      [(0, Action.querySelector), (0, Action.fill), (0, Action.typeText "hi"),
       (0, Action.press), (0, Action.innerText), (0, Action.sleep 200),
       (200, Action.innerText), (200, Action.sleep 200), (400, Action.innerText),
       (400, Action.sleep 300), (700, Action.innerText), (700, Action.sleep 200),
       (900, Action.innerText), (900, Action.sleep 300), (1200, Action.innerText)] =
        pre ++ [(t, Action.innerText),
                (t + ((quietUI (readsOf helloReads "")).reads i).dur, Action.sleep 300),
                (t + ((quietUI (readsOf helloReads "")).reads i).dur + 300, Action.innerText)] :=
  Prompt_returns_settled_text.1 (quietUI (readsOf helloReads "")) 1000 5 "hi" true (idle 0)
    "Hello"
    { busy := false, now := 1200, nreads := 6,
      trace := [(0, Action.querySelector), (0, Action.fill), (0, Action.typeText "hi"),
       (0, Action.press), (0, Action.innerText), (0, Action.sleep 200),
       (200, Action.innerText), (200, Action.sleep 200), (400, Action.innerText),
       (400, Action.sleep 300), (700, Action.innerText), (700, Action.sleep 200),
       (900, Action.innerText), (900, Action.sleep 300), (1200, Action.innerText)] }
    rfl

/-! ## The guard (C2, C3) -/

/-- C3. Entered with the busy flag raised, `Prompt` returns the busy error at
once, whatever the prompt, the web-search flag, the deadline and the page: the
driver is returned as it was, so nothing was done on the page, no sleep was
made, the clock did not move and the flag is still raised. -/
theorem Prompt_busy_rejects (ui : UI) (D fuel : Nat) (prompt : String) (webSearch : Bool)
    (d : Driver) (hb : d.busy = true) :
    Prompt ui D fuel prompt webSearch d = some (Except.error PromptError.busy, d) ∧
      PromptError.busy.message = "driver busy" ∧
      newActions d d = [] ∧ d.busy = true := by
  refine ⟨by simp [Prompt, hb], rfl, by simp [newActions], hb⟩

/-- C3 at a concrete call on a driver held by another request. -/
theorem Prompt_busy_rejects_witness :
    Prompt (quietUI flicker) 1000 0 "hi" true
        { busy := true, now := 7, nreads := 3, trace := [(5, Action.fill)] } =
      some (Except.error PromptError.busy,
        { busy := true, now := 7, nreads := 3, trace := [(5, Action.fill)] }) ∧
      PromptError.busy.message = "driver busy" ∧
      newActions { busy := true, now := 7, nreads := 3, trace := [(5, Action.fill)] }
        { busy := true, now := 7, nreads := 3, trace := [(5, Action.fill)] } = [] ∧
      (Driver.mk true 7 3 [(5, Action.fill)]).busy = true :=
  Prompt_busy_rejects (quietUI flicker) 1000 0 "hi" true
    { busy := true, now := 7, nreads := 3, trace := [(5, Action.fill)] } rfl

/-- Calls made in a row from a driver with the flag down all return. -/
theorem runCalls_free :
    ∀ (calls : List Call) (d : Driver), d.busy = false →
      (∀ c ∈ calls, c.D + 200 ≤ 200 * c.fuel) →
      ∃ rs, runCalls calls d = some rs ∧ rs.length = calls.length ∧
        ∀ x ∈ rs, x.2.busy = false ∧ x.1 ≠ Except.error PromptError.busy := by
  intro calls
  induction calls with
  | nil => intro d _ _; exact ⟨[], rfl, rfl, by simp⟩
  | cons c cs ih =>
    intro d hb hf
    obtain ⟨r, d1, h1, hb1, hr⟩ :=
      Prompt_returns_free c.ui c.D c.fuel c.prompt c.webSearch d hb (hf c (by simp))
    obtain ⟨rs, h2, hlen, hall⟩ := ih d1 hb1 (fun c1 hc => hf c1 (by simp [hc]))
    refine ⟨(r, d1) :: rs, ?_, by simp [hlen], ?_⟩
    · simp [runCalls, h1, h2]
    · intro x hx
      rcases List.mem_cons.1 hx with hx | hx
      · subst hx
        exact ⟨hb1, hr⟩
      · exact hall x hx

/-- C2. Calls of `Prompt` made one after the other on a driver whose busy
flag is down, each with a budget covering its deadline, all return; after
every one of them the flag is down again, whatever the return path (text,
failed click, failed clear, type or Enter, timeout), and none of them returns
the busy error. -/
theorem Prompt_releases_guard (calls : List Call) (d : Driver) (hb : d.busy = false)
    (hf : ∀ c ∈ calls, c.D + 200 ≤ 200 * c.fuel) :
    ∃ rs, runCalls calls d = some rs ∧ rs.length = calls.length ∧
      ∀ x ∈ rs, x.2.busy = false ∧ x.1 ≠ Except.error PromptError.busy :=
  runCalls_free calls d hb hf

/-- The six sample calls return, in this order, a text, the click error, the
three wrapped textarea errors and the timeout. -/
theorem sampleCalls_results :
    (runCalls sampleCalls (idle 0)).map (fun rs => rs.map Prod.fst) =
      some [Except.ok "Hello", Except.error (PromptError.toggle "click failed"),
            Except.error (PromptError.clearTextarea "no textarea"),
            Except.error (PromptError.typePrompt "rejected"),
            Except.error (PromptError.pressEnter "detached"),
            Except.error PromptError.timeout] := by
  rfl

/-- C2 at the six sample calls. -/
theorem Prompt_releases_guard_witness :
    ∃ rs, runCalls sampleCalls (idle 0) = some rs ∧ rs.length = sampleCalls.length ∧
      ∀ x ∈ rs, x.2.busy = false ∧ x.1 ≠ Except.error PromptError.busy :=
  Prompt_releases_guard sampleCalls (idle 0) rfl (by
    intro c hc
    simp only [sampleCalls, List.mem_cons, List.mem_singleton, List.not_mem_nil, or_false] at hc
    rcases hc with h | h | h | h | h | h <;> subst h <;> decide)

/-! ## toggleWebSearch (C6) -/

/-- The search `containsChars` finds exactly the contiguous parts. -/
theorem containsChars_iff (sub : List Char) :
    ∀ s : List Char, containsChars sub s = true ↔ sub <:+: s := by
  intro s
  induction s with
  | nil => simp [containsChars]
  | cons c cs ih =>
    rw [containsChars, Bool.or_eq_true, ih, List.isPrefixOf_iff_prefix, List.infix_cons_iff]

/-- The button counts as active exactly when it has a class in which
`is-active` occurs. -/
theorem classIsActive_iff (cls : Option String) :
    classIsActive cls = true ↔ ∃ c, cls = some c ∧ "is-active".toList <:+: c.toList := by
  cases cls with
  | none => simp [classIsActive]
  | some c => simp [classIsActive, stringsContains, containsChars_iff]

theorem classIsActive_examples :
    classIsActive (some "toggle is-active") = true ∧ classIsActive (some "toggle") = false ∧
      classIsActive (some "") = false ∧ classIsActive none = false := by
  refine ⟨by decide, by decide, by decide, by decide⟩

theorem toggleWebSearch_found (ui : UI) (enable : Bool) (d : Driver) (cls ce : Option String)
    (h : ui.toggle = Toggle.found cls ce) :
    toggleWebSearch ui enable d =
      if classIsActive cls = enable then
        (none, act ui Action.getAttribute (act ui Action.querySelector d))
      else
        (ce, act ui Action.click (act ui Action.getAttribute (act ui Action.querySelector d))) := by
  unfold toggleWebSearch
  rw [h]
  cases enable <;> cases hc : classIsActive cls <;> simp [hc]

theorem toggleWebSearch_missing (ui : UI) (enable : Bool) (d : Driver)
    (h : ui.toggle = Toggle.queryFailed ∨ ui.toggle = Toggle.absent) :
    toggleWebSearch ui enable d = (none, act ui Action.querySelector d) := by
  unfold toggleWebSearch
  rcases h with h | h <;> rw [h]

/-- The comparison `isActive` against `enable` made by `toggleWebSearch`, in
terms of the class attribute of the button. -/
theorem classIsActive_eq_iff (cls : Option String) (enable : Bool) :
    classIsActive cls = enable ↔
      ((∃ c, cls = some c ∧ "is-active".toList <:+: c.toList) ↔ enable = true) := by
  rw [← classIsActive_iff]
  cases enable <;> cases classIsActive cls <;> simp

/-- C6. `toggleWebSearch enable` clicks the button exactly once when the
button is found and its active state (it has a class attribute in which
`is-active` occurs) differs from `enable`, returning the result of that click;
it does not click when the state equals `enable`; and when the button cannot
be located (the query fails or returns nil) it does not click and returns no
error. -/
theorem toggleWebSearch_clicks (ui : UI) (enable : Bool) (d : Driver) :
    (∀ cls ce, ui.toggle = Toggle.found cls ce →
      ¬ ((∃ c, cls = some c ∧ "is-active".toList <:+: c.toList) ↔ enable = true) →
      (newActions d (toggleWebSearch ui enable d).2).count Action.click = 1 ∧
      (toggleWebSearch ui enable d).1 = ce) ∧
    (∀ cls ce, ui.toggle = Toggle.found cls ce →
      ((∃ c, cls = some c ∧ "is-active".toList <:+: c.toList) ↔ enable = true) →
      (newActions d (toggleWebSearch ui enable d).2).count Action.click = 0 ∧
      (toggleWebSearch ui enable d).1 = none) ∧
    (ui.toggle = Toggle.queryFailed ∨ ui.toggle = Toggle.absent →
      (newActions d (toggleWebSearch ui enable d).2).count Action.click = 0 ∧
      (toggleWebSearch ui enable d).1 = none) := by
  refine ⟨?_, ?_, ?_⟩
  · intro cls ce h hne
    have hc : ¬ classIsActive cls = enable := fun hc =>
      hne ((classIsActive_eq_iff cls enable).1 hc)
    rw [toggleWebSearch_found ui enable d cls ce h, if_neg hc]
    simp [newActions]
  · intro cls ce h he
    have hc : classIsActive cls = enable := (classIsActive_eq_iff cls enable).2 he
    rw [toggleWebSearch_found ui enable d cls ce h, if_pos hc]
    simp [newActions]
  · intro h
    rw [toggleWebSearch_missing ui enable d h]
    simp [newActions]

/-- C6 at concrete buttons. A button of class `toggle is-active` is not
clicked when web search is asked for and is clicked once when it is not; a
button of class `toggle` is clicked once when web search is asked for, and the
error of that click is returned; a button without class attribute is not
clicked when web search is not asked for. -/
theorem toggleWebSearch_clicks_witness :
    ((newActions (idle 0)
        (toggleWebSearch (activeUI (some "toggle is-active") (some "stale")) true
          (idle 0)).2).count Action.click = 0 ∧
      (toggleWebSearch (activeUI (some "toggle is-active") (some "stale")) true
        (idle 0)).1 = none) ∧
    ((newActions (idle 0)
        (toggleWebSearch (activeUI (some "toggle is-active") none) false
          (idle 0)).2).count Action.click = 1 ∧
      (toggleWebSearch (activeUI (some "toggle is-active") none) false (idle 0)).1 = none) ∧
    ((newActions (idle 0)
        (toggleWebSearch (activeUI (some "toggle") (some "stale")) true
          (idle 0)).2).count Action.click = 1 ∧
      (toggleWebSearch (activeUI (some "toggle") (some "stale")) true (idle 0)).1 =
        some "stale") ∧
    ((newActions (idle 0)
        (toggleWebSearch (activeUI none (some "stale")) false (idle 0)).2).count
          Action.click = 0 ∧
      (toggleWebSearch (activeUI none (some "stale")) false (idle 0)).1 = none) :=
  ⟨(toggleWebSearch_clicks (activeUI (some "toggle is-active") (some "stale")) true
      (idle 0)).2.1 (some "toggle is-active") (some "stale") rfl
      ⟨fun _ => rfl, fun _ => ⟨"toggle is-active", rfl, "toggle ".toList, [], by decide⟩⟩,
   (toggleWebSearch_clicks (activeUI (some "toggle is-active") none) false
      (idle 0)).1 (some "toggle is-active") none rfl
      (fun h => Bool.false_ne_true
        (h.1 ⟨"toggle is-active", rfl, "toggle ".toList, [], by decide⟩)),
   (toggleWebSearch_clicks (activeUI (some "toggle") (some "stale")) true
      (idle 0)).1 (some "toggle") (some "stale") rfl
      (fun h => by
        obtain ⟨c, hc, hin⟩ := h.2 rfl
        cases hc
        exact absurd ((containsChars_iff _ _).2 hin) (by decide)),
   (toggleWebSearch_clicks (activeUI none (some "stale")) false
      (idle 0)).2.1 none (some "stale") rfl
      ⟨fun h => (by
        obtain ⟨c, hc, _⟩ := h
        cases hc), fun h => absurd h (by decide)⟩⟩

/-! ## Failures of the submission steps (C5) -/

/-- The click of `toggleWebSearch` fails exactly when the button is found in
the state opposite to the one asked for and the click returns an error. -/
theorem toggleWebSearch_fails (ui : UI) (enable : Bool) (d : Driver) (cls : Option String)
    (e : String) (h : ui.toggle = Toggle.found cls (some e)) (hne : classIsActive cls ≠ enable) :
    (toggleWebSearch ui enable d).1 = some e := by
  rw [toggleWebSearch_found ui enable d cls (some e) h, if_neg hne]

theorem newActions_act (ui : UI) (a : Action) (d d2 : Driver) (acts : List (Nat × Action))
    (h : d2.trace = d.trace ++ acts) :
    newActions d (act ui a d2) = newActions d d2 ++ [a] := by
  simp [newActions, h]

/-- The actions logged by `toggleWebSearch` are the query, the attribute read
and the click. -/
theorem newActions_toggle (ui : UI) (enable : Bool) (d : Driver) :
    ∀ a ∈ newActions d (toggleWebSearch ui enable d).2,
      a = Action.querySelector ∨ a = Action.getAttribute ∨ a = Action.click := by
  obtain ⟨acts, htr, hacts⟩ := toggleWebSearch_trace ui enable d
  intro a ha
  rw [newActions_append d _ acts htr] at ha
  obtain ⟨x, hx, rfl⟩ := List.mem_map.1 ha
  exact hacts x hx

/-- What the body of `Prompt` returns and logs when a submission step fails. -/
theorem promptBody_failure (ui : UI) (D fuel : Nat) (prompt : String) (webSearch : Bool)
    (d : Driver) :
    (∀ e, (toggleWebSearch ui webSearch d).1 = some e →
      ∃ d1, promptBody ui D fuel prompt webSearch d =
          some (Except.error (PromptError.toggle e), d1) ∧
        d1.nreads = d.nreads ∧
        ∀ a ∈ newActions d d1, a ≠ Action.fill ∧ (∀ q, a ≠ Action.typeText q) ∧
          a ≠ Action.press ∧ a ≠ Action.innerText) ∧
    (∀ e, (toggleWebSearch ui webSearch d).1 = none → ui.fillErr = some e →
      ∃ d1, promptBody ui D fuel prompt webSearch d =
          some (Except.error (PromptError.clearTextarea e), d1) ∧
        d1.nreads = d.nreads ∧
        ∀ a ∈ newActions d d1, (∀ q, a ≠ Action.typeText q) ∧
          a ≠ Action.press ∧ a ≠ Action.innerText) ∧
    (∀ e, (toggleWebSearch ui webSearch d).1 = none → ui.fillErr = none →
      ui.typeErr prompt = some e →
      ∃ d1, promptBody ui D fuel prompt webSearch d =
          some (Except.error (PromptError.typePrompt e), d1) ∧
        d1.nreads = d.nreads ∧
        ∀ a ∈ newActions d d1, a ≠ Action.press ∧ a ≠ Action.innerText) ∧
    (∀ e, (toggleWebSearch ui webSearch d).1 = none → ui.fillErr = none →
      ui.typeErr prompt = none → ui.pressErr = some e →
      ∃ d1, promptBody ui D fuel prompt webSearch d =
          some (Except.error (PromptError.pressEnter e), d1) ∧
        d1.nreads = d.nreads ∧
        ∀ a ∈ newActions d d1, a ≠ Action.innerText) := by
  obtain ⟨acts, htr, -⟩ := toggleWebSearch_trace ui webSearch d
  have hnr := toggleWebSearch_nreads ui webSearch d
  have hT := newActions_toggle ui webSearch d
  have n1 := newActions_act ui Action.fill d (toggleWebSearch ui webSearch d).2 acts htr
  have n2 := newActions_act ui (Action.typeText prompt) d (act ui Action.fill (toggleWebSearch ui webSearch d).2)
    (acts ++ [((toggleWebSearch ui webSearch d).2.now, Action.fill)]) (by simp [htr])
  have n3 := newActions_act ui Action.press d
    (act ui (Action.typeText prompt) (act ui Action.fill (toggleWebSearch ui webSearch d).2))
    (acts ++ [((toggleWebSearch ui webSearch d).2.now, Action.fill),
      ((act ui Action.fill (toggleWebSearch ui webSearch d).2).now, Action.typeText prompt)]) (by simp [htr])
  refine ⟨?_, ?_, ?_, ?_⟩
  · intro e ht
    refine ⟨(toggleWebSearch ui webSearch d).2, by rw [promptBody_eq, ht], hnr, ?_⟩
    intro a ha
    rcases hT a ha with h1 | h1 | h1 <;> rw [h1] <;> simp
  · intro e ht hfill
    refine ⟨act ui Action.fill (toggleWebSearch ui webSearch d).2, by rw [promptBody_eq, ht, hfill], by simpa using hnr, ?_⟩
    intro a ha
    rw [n1] at ha
    rcases List.mem_append.1 ha with ha | ha
    · rcases hT a ha with h1 | h1 | h1 <;> rw [h1] <;> simp
    · rw [List.mem_singleton.1 ha]
      simp
  · intro e ht hfill hty
    refine ⟨act ui (Action.typeText prompt) (act ui Action.fill (toggleWebSearch ui webSearch d).2),
      by rw [promptBody_eq, ht, hfill, hty], by simpa using hnr, ?_⟩
    intro a ha
    rw [n2, n1] at ha
    simp only [List.mem_append, List.mem_singleton] at ha
    rcases ha with (ha | ha) | ha
    · rcases hT a ha with h1 | h1 | h1 <;> rw [h1] <;> simp
    · rw [ha]
      simp
    · rw [ha]
      simp
  · intro e ht hfill hty hp
    refine ⟨act ui Action.press (act ui (Action.typeText prompt) (act ui Action.fill (toggleWebSearch ui webSearch d).2)),
      by rw [promptBody_eq, ht, hfill, hty, hp], by simpa using hnr, ?_⟩
    intro a ha
    rw [n3, n2, n1] at ha
    simp only [List.mem_append, List.mem_singleton] at ha
    rcases ha with ((ha | ha) | ha) | ha
    · rcases hT a ha with h1 | h1 | h1 <;> rw [h1] <;> simp
    · rw [ha]
      simp
    · rw [ha]
      simp
    · rw [ha]
      simp

/-- C5. In a call of `Prompt` entered with the flag down, a failing
submission step makes the call return the error of that step, without any of
the steps that come after it and without any read of the output element:
a failed click of the web-search button is followed by no clear, no typing,
no Enter; a failed clear by no typing and no Enter; a failed typing by no
Enter; and in all four cases the number of reads is unchanged and no
`InnerText` call is logged. -/
theorem Prompt_submission_failure (ui : UI) (D fuel : Nat) (prompt : String)
    (webSearch : Bool) (d : Driver) (hb : d.busy = false) :
    (∀ cls e, ui.toggle = Toggle.found cls (some e) → classIsActive cls ≠ webSearch →
      ∃ d1, Prompt ui D fuel prompt webSearch d = some (Except.error (PromptError.toggle e), d1) ∧
        d1.nreads = d.nreads ∧
        ∀ a ∈ newActions d d1, a ≠ Action.fill ∧ (∀ q, a ≠ Action.typeText q) ∧
          a ≠ Action.press ∧ a ≠ Action.innerText) ∧
    (∀ e, (toggleWebSearch ui webSearch { d with busy := true }).1 = none →
      ui.fillErr = some e →
      ∃ d1, Prompt ui D fuel prompt webSearch d =
          some (Except.error (PromptError.clearTextarea e), d1) ∧
        d1.nreads = d.nreads ∧
        ∀ a ∈ newActions d d1, (∀ q, a ≠ Action.typeText q) ∧
          a ≠ Action.press ∧ a ≠ Action.innerText) ∧
    (∀ e, (toggleWebSearch ui webSearch { d with busy := true }).1 = none →
      ui.fillErr = none → ui.typeErr prompt = some e →
      ∃ d1, Prompt ui D fuel prompt webSearch d =
          some (Except.error (PromptError.typePrompt e), d1) ∧
        d1.nreads = d.nreads ∧
        ∀ a ∈ newActions d d1, a ≠ Action.press ∧ a ≠ Action.innerText) ∧
    (∀ e, (toggleWebSearch ui webSearch { d with busy := true }).1 = none →
      ui.fillErr = none → ui.typeErr prompt = none → ui.pressErr = some e →
      ∃ d1, Prompt ui D fuel prompt webSearch d =
          some (Except.error (PromptError.pressEnter e), d1) ∧
        d1.nreads = d.nreads ∧
        ∀ a ∈ newActions d d1, a ≠ Action.innerText) := by
  obtain ⟨b1, b2, b3, b4⟩ :=
    promptBody_failure ui D fuel prompt webSearch { d with busy := true }
  refine ⟨?_, ?_, ?_, ?_⟩
  · intro cls e h hne
    obtain ⟨d1, h1, h2, h3⟩ :=
      b1 e (toggleWebSearch_fails ui webSearch { d with busy := true } cls e h hne)
    exact ⟨{ d1 with busy := false }, by rw [Prompt_free _ _ _ _ _ _ hb, h1], h2, h3⟩
  · intro e ht hfill
    obtain ⟨d1, h1, h2, h3⟩ := b2 e ht hfill
    exact ⟨{ d1 with busy := false }, by rw [Prompt_free _ _ _ _ _ _ hb, h1], h2, h3⟩
  · intro e ht hfill hty
    obtain ⟨d1, h1, h2, h3⟩ := b3 e ht hfill hty
    exact ⟨{ d1 with busy := false }, by rw [Prompt_free _ _ _ _ _ _ hb, h1], h2, h3⟩
  · intro e ht hfill hty hp
    obtain ⟨d1, h1, h2, h3⟩ := b4 e ht hfill hty hp
    exact ⟨{ d1 with busy := false }, by rw [Prompt_free _ _ _ _ _ _ hb, h1], h2, h3⟩

/-- C5 at a concrete call: the clear of the textarea fails. -/
theorem Prompt_submission_failure_witness :
    ∃ d1, Prompt (faultyUI none (some "no textarea") none none) 1000 6 "hi" true (idle 0) =
        some (Except.error (PromptError.clearTextarea "no textarea"), d1) ∧
      d1.nreads = (idle 0).nreads ∧
      ∀ a ∈ newActions (idle 0) d1, (∀ q, a ≠ Action.typeText q) ∧
        a ≠ Action.press ∧ a ≠ Action.innerText :=
  (Prompt_submission_failure (faultyUI none (some "no textarea") none none) 1000 6 "hi" true
    (idle 0) rfl).2.1 "no textarea" rfl rfl

/-! ## The deadline (C4) -/

/-- The polling loop on an output that never stabilizes, with reads that take
no time: it returns the timeout error, at once when entered at or after the
deadline, and otherwise less than 500 ms after the deadline; every action it
logs starts less than 300 ms after the deadline. -/
theorem pollLoop_timeout (ui : UI) (D : Nat) (hz : ∀ i, (ui.reads i).dur = 0)
    (hns : neverSettles ui.reads) :
    ∀ (fuel : Nat) (d : Driver), 0 < fuel → D + 200 ≤ d.now + 200 * fuel →
      ∃ d1, pollLoop ui D fuel d = some (Except.error PromptError.timeout, d1) ∧
        D ≤ d1.now ∧ (D ≤ d.now → d1 = d) ∧ (d.now < D → d1.now < D + 500) ∧
        ∃ more, d1.trace = d.trace ++ more ∧ ∀ x ∈ more, x.1 < D + 300 := by
  intro fuel
  induction fuel with
  | zero => intro d h; omega
  | succ n ih =>
    intro d _ hb
    rw [pollLoop_succ]
    by_cases hD : D ≤ d.now
    · rw [if_pos hD]
      exact ⟨d, rfl, hD, fun _ => rfl, fun h => by omega, [], by simp, by simp⟩
    · rw [if_neg hD]
      by_cases hu : (ui.reads d.nreads).usable = true
      · rw [if_pos hu, if_neg (hns _ hu)]
        have hnow : (sleep 200 (innerText ui (sleep 300 (innerText ui d).2)).2).now =
            d.now + 500 := by
          simp only [sleep_now, innerText_now, innerText_nreads, sleep_nreads, hz]
        obtain ⟨d1, h1, h2, h3, h4, more, h5, h6⟩ :=
          ih (sleep 200 (innerText ui (sleep 300 (innerText ui d).2)).2) (by omega)
            (by rw [hnow]; omega)
        rw [hnow] at h3 h4
        refine ⟨d1, h1, h2, fun h => absurd h hD, fun _ => ?_, ?_⟩
        · by_cases hlt : d.now + 500 < D
          · exact h4 hlt
          · rw [h3 (by omega), hnow]
            omega
        · refine ⟨[(d.now, Action.innerText), (d.now, Action.sleep 300),
            (d.now + 300, Action.innerText), (d.now + 300, Action.sleep 200)] ++ more, ?_, ?_⟩
          · rw [h5]
            simp [hz]
          · intro x hx
            rcases List.mem_append.1 hx with hx | hx
            · simp only [List.mem_cons, List.mem_singleton, List.not_mem_nil, or_false] at hx
              rcases hx with rfl | rfl | rfl | rfl <;> simp <;> omega
            · exact h6 x hx
      · rw [if_neg hu]
        have hnow : (sleep 200 (innerText ui d).2).now = d.now + 200 := by
          simp only [sleep_now, innerText_now, hz]
        obtain ⟨d1, h1, h2, h3, h4, more, h5, h6⟩ :=
          ih (sleep 200 (innerText ui d).2) (by omega) (by rw [hnow]; omega)
        rw [hnow] at h3 h4
        refine ⟨d1, h1, h2, fun h => absurd h hD, fun _ => ?_, ?_⟩
        · by_cases hlt : d.now + 200 < D
          · exact h4 hlt
          · rw [h3 (by omega), hnow]
            omega
        · refine ⟨[(d.now, Action.innerText), (d.now, Action.sleep 200)] ++ more, ?_, ?_⟩
          · rw [h5]
            simp [hz]
          · intro x hx
            rcases List.mem_append.1 hx with hx | hx
            · simp only [List.mem_cons, List.mem_singleton, List.not_mem_nil, or_false] at hx
              rcases hx with rfl | rfl <;> simp <;> omega
            · exact h6 x hx

theorem flicker_neverSettles : neverSettles flicker := by
  intro i _
  simp only [flicker]
  rcases Nat.mod_two_eq_zero_or_one i with h | h
  · have h1 : (i + 1) % 2 = 1 := by omega
    simp [h, h1]
  · have h1 : (i + 1) % 2 = 0 := by omega
    simp [h, h1]

/-- C4, as stated, fails. On an output that never stabilizes, with reads
that take no time, a loop entered at instant 0 with the deadline at 100 ms
takes its confirming sample at 300 ms, after the deadline, and returns the
timeout error at 500 ms, more than 200 ms after the deadline. -/
theorem pollLoop_deadline_counterexample :
    neverSettles flicker ∧ (∀ i, (flicker i).dur = 0) ∧
    pollLoop (quietUI flicker) 100 10 (idle 0) =
      some (Except.error PromptError.timeout,
        { busy := false, now := 500, nreads := 2,
          trace := [(0, Action.innerText), (0, Action.sleep 300),
                    (300, Action.innerText), (300, Action.sleep 200)] }) ∧
    100 + 200 < 500 ∧ 100 < 300 :=
  ⟨flicker_neverSettles, fun _ => rfl, rfl, by decide, by decide⟩

/-- C4, amended. On an output that never stabilizes, with reads that take no
time and sleeps of their nominal duration, the polling loop checks the
deadline once per iteration, before the first sample: entered at or after the
deadline `D` it returns the timeout error at once and does nothing; entered
before `D` it returns the timeout error at an instant `T` with
`D ≤ T < D + 500`; and every sample and sleep it makes starts less than
300 ms after `D`. -/
theorem pollLoop_deadline_bound (ui : UI) (D fuel : Nat) (d : Driver)
    (hz : ∀ i, (ui.reads i).dur = 0) (hns : neverSettles ui.reads)
    (hfuel : 0 < fuel) (hf : D + 200 ≤ d.now + 200 * fuel) :
    ∃ d1, pollLoop ui D fuel d = some (Except.error PromptError.timeout, d1) ∧
      D ≤ d1.now ∧ (D ≤ d.now → d1 = d) ∧ (d.now < D → d1.now < D + 500) ∧
      ∃ more, d1.trace = d.trace ++ more ∧ ∀ x ∈ more, x.1 < D + 300 :=
  pollLoop_timeout ui D hz hns fuel d hfuel hf

/-- C4, amended, at the flickering output with the deadline at one second. -/
theorem pollLoop_deadline_bound_witness :
    ∃ d1, pollLoop (quietUI flicker) 1000 6 (idle 0) =
        some (Except.error PromptError.timeout, d1) ∧
      1000 ≤ d1.now ∧ (1000 ≤ (idle 0).now → d1 = idle 0) ∧
      ((idle 0).now < 1000 → d1.now < 1000 + 500) ∧
      ∃ more, d1.trace = (idle 0).trace ++ more ∧ ∀ x ∈ more, x.1 < 1000 + 300 :=
  pollLoop_deadline_bound (quietUI flicker) 1000 6 (idle 0) (fun _ => rfl)
    flicker_neverSettles (by decide) (by decide)

/-! ## The sample kept after a mismatch (C10) -/

/-- C10, as stated, fails. On the reads `A, B, B, C, C` the first sample `A`
is followed by the confirming sample `B`, which is usable and equal to the
next read; the loop does not return `B`: it returns `C` when `C` goes on
being read, and times out when nothing is read afterwards. -/
theorem pollLoop_baseline_counterexample :
    (readsOf abbcc "C" 0).usable = true ∧
    (readsOf abbcc "C" 1).text ≠ (readsOf abbcc "C" 0).text ∧
    (readsOf abbcc "C" 1).usable = true ∧
    (readsOf abbcc "C" 2).text = (readsOf abbcc "C" 1).text ∧
    (pollLoop (quietUI (readsOf abbcc "C")) 10000 60 (idle 0)).map Prod.fst =
      some (Except.ok "C") ∧
    (pollLoop (quietUI (readsOf abbcc "")) 10000 60 (idle 0)).map Prod.fst =
      some (Except.error PromptError.timeout) := by
  refine ⟨by decide, by decide, by decide, by decide, by rfl, by rfl⟩

/-- C10, amended. When the confirming sample differs from the first sample,
the loop drops it, sleeps 200 ms and starts a new iteration: the read after
the confirming one is the new baseline. If the deadline has not passed then,
that read is usable and the read after it has the same text, the loop returns
that text at that read, four reads after the iteration began. -/
theorem pollLoop_fresh_baseline (ui : UI) (D fuel : Nat) (d : Driver) (hD : d.now < D)
    (hu : (ui.reads d.nreads).usable = true)
    (hne : (ui.reads (d.nreads + 1)).text ≠ (ui.reads d.nreads).text) :
    pollLoop ui D (fuel + 1) d =
      pollLoop ui D fuel (sleep 200 (innerText ui (sleep 300 (innerText ui d).2)).2) ∧
    (d.now + (ui.reads d.nreads).dur + 300 + (ui.reads (d.nreads + 1)).dur + 200 < D →
      (ui.reads (d.nreads + 2)).usable = true →
      (ui.reads (d.nreads + 3)).text = (ui.reads (d.nreads + 2)).text →
      ∃ d1, pollLoop ui D (fuel + 2) d = some (Except.ok (ui.reads (d.nreads + 2)).text, d1) ∧
        d1.nreads = d.nreads + 4) := by
  have h1 : pollLoop ui D (fuel + 1) d =
      pollLoop ui D fuel (sleep 200 (innerText ui (sleep 300 (innerText ui d).2)).2) := by
    rw [pollLoop_succ, if_neg (by omega), if_pos hu, if_neg hne]
  refine ⟨h1, ?_⟩
  intro hD2 hu2 he2
  have h2 : pollLoop ui D (fuel + 1 + 1) d =
      pollLoop ui D (fuel + 1) (sleep 200 (innerText ui (sleep 300 (innerText ui d).2)).2) := by
    rw [pollLoop_succ, if_neg (by omega), if_pos hu, if_neg hne]
  rw [show fuel + 2 = fuel + 1 + 1 from rfl, h2, pollLoop_succ]
  simp only [sleep_now, innerText_now, innerText_nreads, sleep_nreads]
  rw [if_neg (by omega), if_pos hu2, if_pos he2]
  exact ⟨_, rfl, by simp⟩

/-- C10, amended, on the reads `A, B, B, B`: the text `B` is returned at the
fourth read. -/
theorem pollLoop_fresh_baseline_witness :
    ∃ d1, pollLoop (quietUI (readsOf ["A", "B", "B", "B"] "")) 1000 (0 + 2) (idle 0) =
        some (Except.ok ((quietUI (readsOf ["A", "B", "B", "B"] "")).reads
          ((idle 0).nreads + 2)).text, d1) ∧
      d1.nreads = (idle 0).nreads + 4 :=
  (pollLoop_fresh_baseline (quietUI (readsOf ["A", "B", "B", "B"] "")) 1000 0 (idle 0)
    (by decide) (by decide) (by decide)).2 (by decide) (by decide) (by decide)

/-! ## The handler's timeout (C7) -/

/-- C7, as stated, fails. A negative timeout is replaced by the default
30 seconds, and a timeout above 9223372036 seconds overflows the 64-bit count
of nanoseconds: neither gives a duration of `n` seconds. -/
theorem resolveTimeout_counterexample :
    resolveTimeout { prompt := "hi", webSearch := false, debug := false, timeout := -1 } =
      30 * second ∧
    resolveTimeout { prompt := "hi", webSearch := false, debug := false, timeout := -1 } ≠
      (-1) * second ∧
    resolveTimeout { prompt := "hi", webSearch := false, debug := false,
                     timeout := 9223372037 } = -9223372036709551616 ∧
    resolveTimeout { prompt := "hi", webSearch := false, debug := false,
                     timeout := 9223372037 } ≠ 9223372037 * second := by
  refine ⟨by decide, by decide, by decide, by decide⟩

/-- C7, amended. The duration given to `Prompt` is 30 seconds when the
timeout field is zero or negative, and exactly `n` seconds, that is
`n * 1000000000` nanoseconds, for every timeout `n` from 1 to 9223372036. -/
theorem resolveTimeout_spec (req : PromptRequest) :
    (req.timeout ≤ 0 → resolveTimeout req = 30 * second ∧ 30 * second = 30000000000) ∧
    (0 < req.timeout → req.timeout ≤ 9223372036 →
      resolveTimeout req = req.timeout * second) := by
  refine ⟨?_, ?_⟩
  · intro h
    have h1 : ¬ req.timeout > 0 := by omega
    simp only [resolveTimeout, if_neg h1, wrapInt64, second]
    omega
  · intro h1 h2
    have h3 : req.timeout > 0 := h1
    simp only [resolveTimeout, if_pos h3, wrapInt64, second]
    omega

/-- C7, amended, for a timeout of 45 seconds. -/
theorem resolveTimeout_spec_witness :
    resolveTimeout { prompt := "hi", webSearch := true, debug := false, timeout := 45 } =
      45 * second :=
  (resolveTimeout_spec { prompt := "hi", webSearch := true, debug := false, timeout := 45 }).2
    (by decide) (by decide)

/-! ## NewDriver (C8) -/

/-- C8. When every step of `NewDriver` succeeds, the steps taken are fixed by
the presence of `auth.json`. When it is there, the stored state is applied
before the only navigation, the one to the chat UI, and the login page, the
wait for the human and the save are not among the steps. When it is not
there, the login page is opened, the human is waited for and the storage state
is saved, once, before the navigation to the chat UI; the driver is returned
after that, with its busy flag down. -/
theorem NewDriver_sequence (env : BootEnv) (h : env.stepsSucceed) :
    (env.statErr = none →
      NewDriver env =
        (Except.ok { busy := false, now := 0, nreads := 0, trace := [] },
         [BootAction.playwrightRun, BootAction.chromiumLaunch, BootAction.newPage,
          BootAction.statAuth, BootAction.addCookiesFromFile, BootAction.gotoMain,
          BootAction.waitForSelector, BootAction.logReady]) ∧
      BootAction.gotoLogin ∉ (NewDriver env).2 ∧ BootAction.scanln ∉ (NewDriver env).2 ∧
      BootAction.storageState ∉ (NewDriver env).2 ∧
      (NewDriver env).2.indexOf BootAction.addCookiesFromFile <
        (NewDriver env).2.indexOf BootAction.gotoMain) ∧
    (∀ e, env.statErr = some e →
      NewDriver env =
        (Except.ok { busy := false, now := 0, nreads := 0, trace := [] },
         [BootAction.playwrightRun, BootAction.chromiumLaunch, BootAction.newPage,
          BootAction.statAuth, BootAction.printNoAuth, BootAction.gotoLogin,
          BootAction.printPressEnter, BootAction.scanln, BootAction.storageState,
          BootAction.gotoMain, BootAction.waitForSelector, BootAction.logReady]) ∧
      BootAction.addCookiesFromFile ∉ (NewDriver env).2 ∧
      (NewDriver env).2.count BootAction.storageState = 1 ∧
      (NewDriver env).2.indexOf BootAction.gotoLogin <
        (NewDriver env).2.indexOf BootAction.scanln ∧
      (NewDriver env).2.indexOf BootAction.scanln <
        (NewDriver env).2.indexOf BootAction.storageState ∧
      (NewDriver env).2.indexOf BootAction.storageState <
        (NewDriver env).2.indexOf BootAction.gotoMain) := by
  obtain ⟨h1, h2, h3, h4, h5, h6, h7, h8⟩ := h
  refine ⟨?_, ?_⟩
  · intro hs
    have e : NewDriver env =
        (Except.ok { busy := false, now := 0, nreads := 0, trace := [] },
         [BootAction.playwrightRun, BootAction.chromiumLaunch, BootAction.newPage,
          BootAction.statAuth, BootAction.addCookiesFromFile, BootAction.gotoMain,
          BootAction.waitForSelector, BootAction.logReady]) := by
      simp [NewDriver, finishBoot, h1, h2, h3, h4, h7, h8, hs]
    rw [e]
    refine ⟨rfl, by decide, by decide, by decide, by decide⟩
  · intro e0 hs
    have e : NewDriver env =
        (Except.ok { busy := false, now := 0, nreads := 0, trace := [] },
         [BootAction.playwrightRun, BootAction.chromiumLaunch, BootAction.newPage,
          BootAction.statAuth, BootAction.printNoAuth, BootAction.gotoLogin,
          BootAction.printPressEnter, BootAction.scanln, BootAction.storageState,
          BootAction.gotoMain, BootAction.waitForSelector, BootAction.logReady]) := by
      simp [NewDriver, finishBoot, h1, h2, h3, h5, h6, h7, h8, hs]
    rw [e]
    refine ⟨rfl, by decide, by decide, by decide, by decide, by decide⟩

/-- C8 on a first run: `auth.json` is not there. -/
theorem NewDriver_sequence_witness :
    NewDriver (smoothBoot (some "no such file")) =
      (Except.ok { busy := false, now := 0, nreads := 0, trace := [] },
       [BootAction.playwrightRun, BootAction.chromiumLaunch, BootAction.newPage,
        BootAction.statAuth, BootAction.printNoAuth, BootAction.gotoLogin,
        BootAction.printPressEnter, BootAction.scanln, BootAction.storageState,
        BootAction.gotoMain, BootAction.waitForSelector, BootAction.logReady]) :=
  ((NewDriver_sequence (smoothBoot (some "no such file"))
    ⟨rfl, rfl, rfl, rfl, rfl, rfl, rfl, rfl⟩).2 "no such file" rfl).1

/-! ## Concurrent callers (C9) -/

/-- C9 fails on the code. Two callers enter `Prompt` on a free driver; both
load `d.busy` before either stores `true`: both are in the guarded body, none
is rejected. When the first caller takes both steps before the second one
starts, the second one is rejected. -/
theorem guard_race :
    runSchedule [0, 1, 0, 1] { busy := false, pcs := [Pc.atTest, Pc.atTest] } =
      { busy := true, pcs := [Pc.inBody, Pc.inBody] } ∧
    inFlight (runSchedule [0, 1, 0, 1] { busy := false, pcs := [Pc.atTest, Pc.atTest] }) = 2 ∧
    runSchedule [0, 0, 1] { busy := false, pcs := [Pc.atTest, Pc.atTest] } =
      { busy := true, pcs := [Pc.inBody, Pc.rejected] } := by
  refine ⟨by decide, by decide, by decide⟩

end Lumo
